import Mathlib

/-!
Shallow embedding of the alert/monitor core of the hardware_monitor
repository (`src/core/alert_system.py`, `src/core/monitor.py`,
`src/core/config_manager.py`), together with theorems settling the
frozen claims about it.

Modelling conventions, chosen once and used throughout:

* Python dicts are association lists `List (String × α)` in insertion
  order; `alookup` is `d.get(k)` / `k in d`, `aset` is `d[k] = v`
  (update in place if the key exists, append otherwise).
* Temperature readings, thresholds and timestamps are modelled as `Int`.
  The Python code carries them as floats; every claim here concerns
  comparisons, differences and message templates, none of which depends
  on non-integral values, and the Python rendering of the numeric values
  inside messages is abstracted to integer rendering (`toString`).
* All calls to `time.time()` made during one `check_thresholds` call or
  one monitor cycle are modelled as a single value `current_time` / `now`
  passed in explicitly; the sub-second drift between consecutive clock
  reads inside one cycle is abstracted away.
* A Python exception escaping a modelled function is made explicit: the
  fold state of `check_thresholds` carries `error : Option PyError`;
  `error = none` means the Python call returned its list normally,
  `error = some e` means the call raised `e` (the locally accumulated
  `alerts` list was never returned to the caller, while the mutations
  already performed on `self` persist, exactly as in Python).
* A registered custom alert action (`self.custom_alert_actions[device]`,
  a zero-argument callable) is opaque to the engine except for whether
  invoking it raises; it is therefore modelled by a `Bool` that is `true`
  iff the call raises.
-/

/-- Errors a modelled Python call can raise: `keyError k` is an unhandled
`KeyError` on dictionary key `k`; `actionError d` is an exception raised
by the custom alert action registered for device `d`. -/
inductive PyError where
  | keyError (key : String)
  | actionError (device : String)
deriving DecidableEq, Repr

/-- Dictionary lookup, `d.get(key)`: first binding of `key` in the list. -/
def alookup {α : Type} : List (String × α) → String → Option α
  | [], _ => none
  | (k, v) :: rest, key => if k = key then some v else alookup rest key

/-- Dictionary update, `d[key] = v`: replace the binding in place if the
key exists, append it otherwise (Python dict insertion-order semantics). -/
def aset {α : Type} : List (String × α) → String → α → List (String × α)
  | [], key, v => [(key, v)]
  | (k, w) :: rest, key, v =>
      if k = key then (k, v) :: rest else (k, w) :: aset rest key v

/-- The hard-coded default `Thresholds` section of
`ConfigManager._get_default_config`: CPU 85, GPU 90, SSD 70 (°C). -/
def default_thresholds : List (String × Int) :=
  [("CPU", 85), ("GPU", 90), ("SSD", 70)]

/-- The configuration state the core reads
(`src/core/config_manager.py`): the `Thresholds` entries present in the
parsed `settings.ini` (possibly empty), and the resolved values of
`get_alert_cooldown()` and `get_log_temperatures()` (these getters fall
back to a fixed default when the file lacks the key, so they are modelled
as already-resolved values). -/
structure ConfigManager where
  file_thresholds : List (String × Int)
  alert_cooldown : Int
  log_temperatures : Bool
deriving DecidableEq, Repr

/-- Model of `ConfigManager.get_threshold(device)`: try the `Thresholds`
section of the config file; on a missing entry fall back to the defaults
dict under key `Thresholds`, which raises `KeyError(device)`
when the device is not one of CPU/GPU/SSD. The write-back that seeds the
default into the file returns the very value looked up and is observably
irrelevant to the claims, so it is not threaded through. -/
def ConfigManager.get_threshold (cfg : ConfigManager) (device : String) :
    Except PyError Int :=
  match alookup cfg.file_thresholds device with
  | some v => Except.ok v
  | none =>
      match alookup default_thresholds device with
      | some v => Except.ok v
      | none => Except.error (PyError.keyError device)

/-- One per-device alert record with fields `active` and `last_triggered`
(built in `AlertSystem.__init__`). -/
structure AlertState where
  active : Bool
  last_triggered : Int
deriving DecidableEq, Repr

/-- Model of `AlertSystem.alert_states`: the dict built in `__init__` with
exactly the three keys `CPU`, `GPU`, `SSD`; no code path ever adds a key,
so it is modelled as a record with one field per key. -/
structure AlertStates where
  cpu : AlertState
  gpu : AlertState
  ssd : AlertState
deriving DecidableEq, Repr

/-- Lookup `self.alert_states[device]` made total: `some` for the three
keys present in the dict, `none` (Python: `KeyError`) otherwise. -/
def AlertStates.get (s : AlertStates) : String → Option AlertState
  | "CPU" => some s.cpu
  | "GPU" => some s.gpu
  | "SSD" => some s.ssd
  | _ => none

/-- Overwrite the record stored under `device`; only ever reached for the
three existing keys (every write in the source is guarded by a lookup). -/
def AlertStates.set (s : AlertStates) (device : String) (st : AlertState) :
    AlertStates :=
  if device = "CPU" then { s with cpu := st }
  else if device = "GPU" then { s with gpu := st }
  else if device = "SSD" then { s with ssd := st }
  else s

/-- The mutable state of one `AlertSystem` instance: the per-device
records, the cooldown cached from configuration at construction /
`update_config`, and the registered custom actions (device ↦ whether the
zero-argument callable raises when invoked). -/
structure AlertSystem where
  alert_states : AlertStates
  cooldown_period : Int
  custom_alert_actions : List (String × Bool)
deriving DecidableEq, Repr

/-- Model of `AlertSystem.__init__`: all three devices inactive with
`last_triggered = 0`, cooldown read from configuration, no custom
actions. -/
def AlertSystem.init (cfg : ConfigManager) : AlertSystem :=
  { alert_states :=
      { cpu := { active := false, last_triggered := 0 }
        gpu := { active := false, last_triggered := 0 }
        ssd := { active := false, last_triggered := 0 } }
    cooldown_period := cfg.alert_cooldown
    custom_alert_actions := [] }

/-- The breach message built in `check_thresholds`:
`f"\x7bdevice\x7d温度过高: \x7btemp\x7d°C (阈值: \x7bthreshold\x7d°C)"`. -/
def breachMsg (device : String) (temp threshold : Int) : String :=
  device ++ "温度过高: " ++ toString temp ++ "°C (阈值: " ++
    toString threshold ++ "°C)"

/-- The recovery message built in `check_thresholds`:
`f"\x7bdevice\x7d温度已恢复正常: \x7btemp\x7d°C"`. -/
def recoveryMsg (device : String) (temp : Int) : String :=
  device ++ "温度已恢复正常: " ++ toString temp ++ "°C"

/-- The evolving state of one `check_thresholds` call: the local `alerts`
list, the engine state, and whether an exception has been raised (after
which Python executes nothing further in the loop). -/
structure CheckResult where
  alerts : List String
  sys : AlertSystem
  error : Option PyError
deriving DecidableEq, Repr

/-- The body of the `for device, temp in temperatures.items()` loop of
`AlertSystem.check_thresholds`, for one `(device, temp)` item. Mirrors the
source line by line: skip `None` readings; read the threshold fresh from
configuration; on `temp > threshold` read `last_triggered` (a `KeyError`
point for unknown devices), suppress inside the cooldown window, otherwise
set `active := true`, `last_triggered := current_time`, append the breach
message, then invoke the custom action if one is registered (a raising
action aborts the whole call — the source has no `try` around it);
on `temp <= threshold` read `active` (again a `KeyError` point) and emit a
recovery, clearing `active`, only when it was set. -/
def check_step (cfg : ConfigManager) (current_time : Int)
    (acc : CheckResult) (entry : String × Option Int) : CheckResult :=
  if acc.error.isSome then acc else
  match entry.2 with
  | none => acc
  | some temp =>
    match cfg.get_threshold entry.1 with
    | Except.error e => { acc with error := some e }
    | Except.ok threshold =>
      if threshold < temp then
        match acc.sys.alert_states.get entry.1 with
        | none => { acc with error := some (PyError.keyError entry.1) }
        | some st =>
          if current_time - st.last_triggered < acc.sys.cooldown_period then
            acc
          else
            let acc1 : CheckResult :=
              { acc with
                sys := { acc.sys with
                  alert_states := (acc.sys.alert_states.set entry.1
                    { active := true, last_triggered := current_time }) }
                alerts := acc.alerts ++ [breachMsg entry.1 temp threshold] }
            match alookup acc.sys.custom_alert_actions entry.1 with
            | none => acc1
            | some raises =>
                if raises then
                  { acc1 with error := some (PyError.actionError entry.1) }
                else acc1
      else
        match acc.sys.alert_states.get entry.1 with
        | none => { acc with error := some (PyError.keyError entry.1) }
        | some st =>
          if st.active then
            { acc with
              sys := { acc.sys with
                alert_states := (acc.sys.alert_states.set entry.1
                  { active := false, last_triggered := st.last_triggered }) }
              alerts := acc.alerts ++ [recoveryMsg entry.1 temp] }
          else acc

/-- Model of `AlertSystem.check_thresholds(temperatures)`. Here
`self.config` is passed explicitly as `cfg` and `current_time` is the
value of `time.time()` during the call. The
result bundles the returned list, the engine state after the call, and the
exception if one escaped (in which case the list was never returned). -/
def AlertSystem.check_thresholds (sys : AlertSystem) (cfg : ConfigManager)
    (current_time : Int) (temperatures : List (String × Option Int)) :
    CheckResult :=
  temperatures.foldl (check_step cfg current_time)
    { alerts := [], sys := sys, error := none }

/-- Model of `AlertSystem.reset_alert(device)`: if the device is a key of
`alert_states`, force `active = False`, leaving `last_triggered` as it
is; otherwise do nothing. -/
def AlertSystem.reset_alert (sys : AlertSystem) (device : String) :
    AlertSystem :=
  match sys.alert_states.get device with
  | some st =>
      { sys with alert_states := (sys.alert_states.set device
          { active := false, last_triggered := st.last_triggered }) }
  | none => sys

/-- Model of `AlertSystem.set_custom_alert_action(device, action)`: last
registration for a device wins. -/
def AlertSystem.set_custom_alert_action (sys : AlertSystem)
    (device : String) (raises : Bool) : AlertSystem :=
  { sys with
    custom_alert_actions := aset sys.custom_alert_actions device raises }

/-- A temperature snapshot, `Dict[str, Optional[float]]`, in iteration
order. -/
abbrev Snapshot : Type := List (String × Option Int)

/-- The mutable state of one `HardwareMonitor` instance that the claims
touch: the snapshot accepted last (delta baseline), the snapshot fetched
last (assigned before validation), the `last_alert_time` dict keyed by the
first whitespace token of each dispatched message, and the owned alert
engine. -/
structure HardwareMonitor where
  last_temperatures : Snapshot
  current_temperatures : Snapshot
  last_alert_time : List (String × Int)
  alert_system : AlertSystem
deriving DecidableEq, Repr

/-- Model of `HardwareMonitor._validate_temperatures()`: reject when no
device has a reading, and reject when the reading of some device differs
from its baseline reading (`self.last_temperatures.get(device)`) by
strictly more than 20 °C; a `None` on either side skips the delta check
for that device. -/
def validate_temperatures (current last : Snapshot) : Bool :=
  current.any (fun p => p.2.isSome) &&
  current.all (fun p =>
    match p.2, alookup last p.1 with
    | some t, some (some lt) => decide ((t - lt).natAbs ≤ 20)
    | _, _ => true)

/-- Characters of a string up to (excluding) the first space. -/
def firstTokenChars : List Char → List Char
  | [] => []
  | c :: rest => if c = ' ' then [] else c :: firstTokenChars rest

/-- Model of `alert.split()[0]` as evaluated on the messages this system
builds: they are non-empty, do not start with whitespace, and contain no
whitespace other than single space characters, so the first element of
`split()` is exactly the prefix up to the first space. -/
def firstToken (s : String) : String := String.mk (firstTokenChars s.data)

/-- The body of the `for alert in alerts` loop of
`HardwareMonitor._check_alerts`, folding over `(last_alert_time,
messages forwarded to the alert sink so far)`: extract the key with
`alert.split()[0]`, drop the message when that key fired less than
`cooldown` seconds ago, otherwise record the time and forward the message
to the alert callback. -/
def dispatch_step (cooldown now : Int)
    (acc : List (String × Int) × List String) (alert : String) :
    List (String × Int) × List String :=
  let device := firstToken alert
  let last_alert := (alookup acc.1 device).getD 0
  if now - last_alert < cooldown then acc
  else (aset acc.1 device now, acc.2 ++ [alert])

/-- The sink invocations one monitor cycle performs: the snapshots passed
to the UI-update callback, the messages passed to the alert callback, and
the snapshots passed to the log callback. -/
structure CycleOutput where
  ui_calls : List Snapshot
  alert_calls : List String
  log_calls : List Snapshot
deriving DecidableEq, Repr

/-- Output of a cycle in which no sink was invoked. -/
def CycleOutput.empty : CycleOutput :=
  { ui_calls := [], alert_calls := [], log_calls := [] }

/-- One iteration of `HardwareMonitor._monitor_loop` on the snapshot
`snapshot` fetched at time `now`, with the callbacks attached. Mirrors the
source order: assign `current_temperatures` first; on failed validation
sleep and `continue` (no sink call, `last_temperatures` not advanced);
otherwise call the UI sink, run `_check_alerts` (an exception escaping
`check_thresholds` is caught by the `try` of the loop, ending the cycle
after the UI call with the engine mutations made so far kept), dispatch the
returned messages through the loop-level cooldown filter, call the log
sink when logging is enabled, and advance `last_temperatures`. -/
def monitor_cycle (cfg : ConfigManager) (m : HardwareMonitor)
    (snapshot : Snapshot) (now : Int) : HardwareMonitor × CycleOutput :=
  let m1 : HardwareMonitor := { m with current_temperatures := snapshot }
  if validate_temperatures snapshot m.last_temperatures then
    let r := m1.alert_system.check_thresholds cfg now snapshot
    match r.error with
    | some _ =>
        ({ m1 with alert_system := r.sys },
         { ui_calls := [snapshot], alert_calls := [], log_calls := [] })
    | none =>
        let d := r.alerts.foldl (dispatch_step cfg.alert_cooldown now)
          (m1.last_alert_time, [])
        ({ m1 with
            alert_system := r.sys
            last_alert_time := d.1
            last_temperatures := snapshot },
         { ui_calls := [snapshot]
           alert_calls := d.2
           log_calls := if cfg.log_temperatures then [snapshot] else [] })
  else
    (m1, CycleOutput.empty)

/-- Model of `HardwareMonitor.get_current_temperatures()`, that is
`return self.current_temperatures.copy()` — a shallow copy of whatever
snapshot was fetched last (values are immutable in the model, so the copy
is the value itself). -/
def HardwareMonitor.get_current_temperatures (m : HardwareMonitor) :
    Snapshot :=
  m.current_temperatures

/-- Shared concrete fixture: empty config file, the default 300 s
cooldown, logging enabled. -/
def cfgD : ConfigManager :=
  { file_thresholds := [], alert_cooldown := 300, log_temperatures := true }

/-- Shared concrete fixture: a freshly constructed engine over `cfgD`. -/
def sysD : AlertSystem := AlertSystem.init cfgD

instance {e a : Type} [DecidableEq e] [DecidableEq a] :
    DecidableEq (Except e a) := fun x y =>
  match x, y with
  | Except.ok u, Except.ok v =>
      if h : u = v then isTrue (by rw [h])
      else isFalse (by intro hc; injection hc; contradiction)
  | Except.error u, Except.error v =>
      if h : u = v then isTrue (by rw [h])
      else isFalse (by intro hc; injection hc; contradiction)
  | Except.ok _, Except.error _ => isFalse (by intro hc; injection hc)
  | Except.error _, Except.ok _ => isFalse (by intro hc; injection hc)

/-- Devices for which `AlertSystem.__init__` creates a state record. -/
def trackedDevice (d : String) : Prop :=
  d = "CPU" ∨ d = "GPU" ∨ d = "SSD"

instance (d : String) : Decidable (trackedDevice d) := by
  unfold trackedDevice
  infer_instance

/-- Concrete fixture: an engine in which CPU has an active alert that
fired at time 1000, with a 300 s cooldown. -/
def sysActive : AlertSystem :=
  { alert_states :=
      { cpu := { active := true, last_triggered := 1000 }
        gpu := { active := false, last_triggered := 0 }
        ssd := { active := false, last_triggered := 0 } }
    cooldown_period := 300
    custom_alert_actions := [] }

/-- Concrete fixture: a monitor over `cfgD` whose baseline and fetched
snapshots read CPU at 80 °C, with a fresh engine and no alert history. -/
def mon0 : HardwareMonitor :=
  { last_temperatures := [("CPU", some 80)]
    current_temperatures := [("CPU", some 80)]
    last_alert_time := []
    alert_system := sysD }

/-- Monitor state after one accepted cycle on `mon0`: CPU 90 °C at time
1000 (a breach fires and is forwarded). -/
def c6mon1 : HardwareMonitor :=
  (monitor_cycle cfgD mon0 [("CPU", some 90)] 1000).1

/-- Monitor state after a second accepted cycle: CPU 80 °C at time 1100
(a recovery fires and is forwarded). -/
def c6mon2 : HardwareMonitor :=
  (monitor_cycle cfgD c6mon1 [("CPU", some 80)] 1100).1

/-- Monitor state after a third accepted cycle: CPU 90 °C at time 1300
(the cooldown has elapsed, so a second breach fires and is forwarded). -/
def c6mon3 : HardwareMonitor :=
  (monitor_cycle cfgD c6mon2 [("CPU", some 90)] 1300).1

/-- Monitor state after one accepted cycle on `mon0` with CPU 85 °C at
time 1000, so its last accepted snapshot reads CPU 85 °C. -/
def c8mon1 : HardwareMonitor :=
  (monitor_cycle cfgD mon0 [("CPU", some 85)] 1000).1

/-- Once an exception has been raised, the loop body does nothing more. -/
theorem check_step_of_error (cfg : ConfigManager) (now : Int)
    (acc : CheckResult) (e : String × Option Int)
    (h : acc.error.isSome) : check_step cfg now acc e = acc := by
  unfold check_step
  simp [h]

/-- Once an exception has been raised, the rest of the loop is skipped. -/
theorem foldl_check_step_of_error (cfg : ConfigManager) (now : Int)
    (temps : List (String × Option Int)) (acc : CheckResult)
    (h : acc.error.isSome) :
    temps.foldl (check_step cfg now) acc = acc := by
  induction temps with
  | nil => rfl
  | cons p rest ih => rw [List.foldl_cons, check_step_of_error cfg now acc p h, ih]

/-- An item whose reading is `None` leaves the loop state untouched. -/
theorem check_step_none (cfg : ConfigManager) (now : Int)
    (acc : CheckResult) (d : String) :
    check_step cfg now acc (d, none) = acc := by
  unfold check_step
  split <;> rfl

/-- Evaluation of `check_thresholds` on a single-device snapshot in the
breach case: reading above threshold, cooldown elapsed, no registered
custom action. -/
theorem check_one_breach (sys : AlertSystem) (cfg : ConfigManager)
    (d : String) (st : AlertState) (t h now : Int)
    (hget : sys.alert_states.get d = some st)
    (hthr : cfg.get_threshold d = Except.ok h)
    (ht : h < t)
    (hcool : sys.cooldown_period ≤ now - st.last_triggered)
    (hact : alookup sys.custom_alert_actions d = none) :
    sys.check_thresholds cfg now [(d, some t)] =
      { alerts := [breachMsg d t h]
        sys := { sys with alert_states :=
          (sys.alert_states.set d { active := true, last_triggered := now }) }
        error := none } := by
  unfold AlertSystem.check_thresholds
  rw [List.foldl_cons, List.foldl_nil]
  unfold check_step
  simp [hthr, hget, hact, ht, not_lt.mpr hcool]

/-- Evaluation of `check_thresholds` on a single-device snapshot in the
cooldown case: reading above threshold but the cooldown window is still
open, so nothing is emitted and nothing changes. -/
theorem check_one_suppressed (sys : AlertSystem) (cfg : ConfigManager)
    (d : String) (st : AlertState) (t h now : Int)
    (hget : sys.alert_states.get d = some st)
    (hthr : cfg.get_threshold d = Except.ok h)
    (ht : h < t)
    (hcool : now - st.last_triggered < sys.cooldown_period) :
    sys.check_thresholds cfg now [(d, some t)] =
      { alerts := [], sys := sys, error := none } := by
  unfold AlertSystem.check_thresholds
  rw [List.foldl_cons, List.foldl_nil]
  unfold check_step
  simp [hthr, hget, ht, hcool]

/-- Evaluation of `check_thresholds` on a single-device snapshot in the
recovery case: reading at or below threshold while the alert is active. -/
theorem check_one_recovery (sys : AlertSystem) (cfg : ConfigManager)
    (d : String) (st : AlertState) (t h now : Int)
    (hget : sys.alert_states.get d = some st)
    (hthr : cfg.get_threshold d = Except.ok h)
    (ht : t ≤ h)
    (hactive : st.active = true) :
    sys.check_thresholds cfg now [(d, some t)] =
      { alerts := [recoveryMsg d t]
        sys := { sys with alert_states := (sys.alert_states.set d
          { active := false, last_triggered := st.last_triggered }) }
        error := none } := by
  unfold AlertSystem.check_thresholds
  rw [List.foldl_cons, List.foldl_nil]
  unfold check_step
  simp [hthr, hget, hactive, not_lt.mpr ht]

/-- Evaluation of `check_thresholds` on a single-device snapshot in the
idle case: reading at or below threshold and no active alert. -/
theorem check_one_idle (sys : AlertSystem) (cfg : ConfigManager)
    (d : String) (st : AlertState) (t h now : Int)
    (hget : sys.alert_states.get d = some st)
    (hthr : cfg.get_threshold d = Except.ok h)
    (ht : t ≤ h)
    (hactive : st.active = false) :
    sys.check_thresholds cfg now [(d, some t)] =
      { alerts := [], sys := sys, error := none } := by
  unfold AlertSystem.check_thresholds
  rw [List.foldl_cons, List.foldl_nil]
  unfold check_step
  simp [hthr, hget, hactive, not_lt.mpr ht]

/-- Updating an existing key and reading it back yields the new record. -/
theorem AlertStates.get_set_same (s : AlertStates) (d : String)
    (st st' : AlertState) (hget : s.get d = some st) :
    (s.set d st').get d = some st' := by
  unfold AlertStates.get at hget ⊢
  unfold AlertStates.set
  split at hget <;> simp_all

/-- Lookup of a device outside CPU/GPU/SSD fails in every engine state. -/
theorem AlertStates.get_eq_none (s : AlertStates) (d : String)
    (hd : ¬ trackedDevice d) : s.get d = none := by
  unfold trackedDevice at hd
  push_neg at hd
  unfold AlertStates.get
  split <;> simp_all

/-- Devices outside CPU/GPU/SSD have no default threshold either. -/
theorem default_thresholds_untracked (d : String)
    (hd : ¬ trackedDevice d) : alookup default_thresholds d = none := by
  unfold trackedDevice at hd
  push_neg at hd
  simp [default_thresholds, alookup, (Ne.symm hd.1), (Ne.symm hd.2.1),
    (Ne.symm hd.2.2)]

/-- Breach and recovery messages are never the same string: after the
shared device prefix they continue with different characters. -/
theorem breachMsg_ne_recoveryMsg (d : String) (t t' h : Int) :
    breachMsg d t h ≠ recoveryMsg d t' := by
  intro heq
  have h1 : (breachMsg d t h).data = (recoveryMsg d t').data := by rw [heq]
  unfold breachMsg recoveryMsg at h1
  simp only [String.data_append] at h1
  simp only [List.append_assoc] at h1
  have h2 := List.append_cancel_left h1
  simp only [List.cons_append, List.cons.injEq] at h2
  exact absurd h2.2.2.1 (by decide)

/-- Processing a present reading for a device outside CPU/GPU/SSD raises
`KeyError(device)`, from the defaults dict or from `alert_states`. -/
theorem check_step_untracked (cfg : ConfigManager) (now : Int)
    (acc : CheckResult) (d : String) (t : Int)
    (hacc : acc.error = none) (hd : ¬ trackedDevice d) :
    (check_step cfg now acc (d, some t)).error = some (PyError.keyError d) := by
  have hget : acc.sys.alert_states.get d = none :=
    AlertStates.get_eq_none acc.sys.alert_states d hd
  unfold check_step
  simp only [hacc, Option.isSome_none, Bool.false_eq_true, if_false]
  unfold ConfigManager.get_threshold
  cases hf : alookup cfg.file_thresholds d with
  | none => simp [hf, default_thresholds_untracked d hd]
  | some v => simp [hf, hget]

/-- The loop body never modifies the registered custom actions. -/
theorem check_step_actions (cfg : ConfigManager) (now : Int)
    (acc : CheckResult) (e : String × Option Int) :
    (check_step cfg now acc e).sys.custom_alert_actions =
      acc.sys.custom_alert_actions := by
  unfold check_step
  rcases e with ⟨d, t⟩
  dsimp only
  split
  · rfl
  · cases t with
    | none => rfl
    | some temp =>
      cases cfg.get_threshold d with
      | error e => rfl
      | ok threshold =>
        dsimp only
        split
        · cases acc.sys.alert_states.get d with
          | none => rfl
          | some st =>
            dsimp only
            split
            · rfl
            · cases alookup acc.sys.custom_alert_actions d with
              | none => rfl
              | some raises => dsimp only; split <;> rfl
        · cases acc.sys.alert_states.get d with
          | none => rfl
          | some st => dsimp only; split <;> rfl

/-- A successful dictionary lookup returns a binding of the dict. -/
theorem alookup_mem {α : Type} (l : List (String × α)) (k : String) (v : α)
    (h : alookup l k = some v) : (k, v) ∈ l := by
  induction l with
  | nil => simp [alookup] at h
  | cons p rest ih =>
    rcases p with ⟨k1, v1⟩
    unfold alookup at h
    by_cases hk : k1 = k
    · rw [if_pos hk] at h
      injection h with h
      subst hk h
      exact List.mem_cons_self _ _
    · rw [if_neg hk] at h
      exact List.mem_cons_of_mem _ (ih h)

/-- When no registered action raises, the only exceptions the loop body
can introduce are `KeyError`s. -/
theorem check_step_error_shape (cfg : ConfigManager) (now : Int)
    (acc : CheckResult) (e : String × Option Int)
    (hnr : ∀ p ∈ acc.sys.custom_alert_actions, p.2 = false)
    (h : acc.error = none ∨ ∃ k, acc.error = some (PyError.keyError k)) :
    (check_step cfg now acc e).error = none ∨
      ∃ k, (check_step cfg now acc e).error = some (PyError.keyError k) := by
  unfold check_step
  rcases e with ⟨d, t⟩
  dsimp only
  split
  · exact h
  · cases t with
    | none => exact h
    | some temp =>
      cases hthr : cfg.get_threshold d with
      | error err =>
        dsimp only
        right
        unfold ConfigManager.get_threshold at hthr
        cases hf : alookup cfg.file_thresholds d with
        | some v => rw [hf] at hthr; simp at hthr
        | none =>
          rw [hf] at hthr
          cases hdd : alookup default_thresholds d with
          | some v => rw [hdd] at hthr; simp at hthr
          | none =>
            rw [hdd] at hthr
            simp at hthr
            exact ⟨d, by simp [← hthr]⟩
      | ok threshold =>
        dsimp only
        split
        · cases acc.sys.alert_states.get d with
          | none => exact Or.inr ⟨d, rfl⟩
          | some st =>
            dsimp only
            split
            · exact h
            · cases hact : alookup acc.sys.custom_alert_actions d with
              | none => exact h
              | some raises =>
                have : raises = false := by
                  have hmem := alookup_mem acc.sys.custom_alert_actions d raises hact
                  exact hnr _ hmem
                simp [this]
                exact h
        · cases acc.sys.alert_states.get d with
          | none => exact Or.inr ⟨d, rfl⟩
          | some st =>
            dsimp only
            split
            · exact h
            · exact h

/-- When no registered action raises, the only exceptions the whole loop
can raise are `KeyError`s. -/
theorem foldl_check_step_error_shape (cfg : ConfigManager) (now : Int)
    (temps : List (String × Option Int)) :
    ∀ (acc : CheckResult),
    (∀ p ∈ acc.sys.custom_alert_actions, p.2 = false) →
    (acc.error = none ∨ ∃ k, acc.error = some (PyError.keyError k)) →
    ((temps.foldl (check_step cfg now) acc).error = none ∨
      ∃ k, (temps.foldl (check_step cfg now) acc).error =
        some (PyError.keyError k)) := by
  induction temps with
  | nil => intro acc _ h; exact h
  | cons p rest ih =>
    intro acc hnr h
    rw [List.foldl_cons]
    refine ih (check_step cfg now acc p) ?_ ?_
    · rw [check_step_actions]
      exact hnr
    · exact check_step_error_shape cfg now acc p hnr h

/-- A snapshot containing a present reading for a device outside
CPU/GPU/SSD makes the loop raise some exception. -/
theorem foldl_check_step_isSome (cfg : ConfigManager) (now : Int)
    (d : String) (t : Int) (hd : ¬ trackedDevice d) :
    ∀ (temps : List (String × Option Int)) (acc : CheckResult),
    (d, some t) ∈ temps →
    ((temps.foldl (check_step cfg now) acc).error).isSome := by
  intro temps
  induction temps with
  | nil => intro acc hmem; simp at hmem
  | cons p rest ih =>
    intro acc hmem
    rw [List.foldl_cons]
    rcases List.mem_cons.mp hmem with heq | hrest
    · subst heq
      cases hacc : acc.error with
      | some e =>
        rw [check_step_of_error cfg now acc _ (by simp [hacc])]
        rw [foldl_check_step_of_error cfg now rest acc (by simp [hacc])]
        simp [hacc]
      | none =>
        have herr := check_step_untracked cfg now acc d t hacc hd
        rw [foldl_check_step_of_error cfg now rest _ (by simp [herr])]
        simp [herr]
    · exact ih (check_step cfg now acc p) hrest

/-- On a single-device snapshot with the reading above threshold, the
returned list is empty or the singleton breach message, whatever the
cooldown state and registered actions. -/
theorem check_one_overtemp_alerts (sys : AlertSystem) (cfg : ConfigManager)
    (d : String) (st : AlertState) (t h now : Int)
    (hget : sys.alert_states.get d = some st)
    (hthr : cfg.get_threshold d = Except.ok h)
    (ht : h < t) :
    (sys.check_thresholds cfg now [(d, some t)]).alerts = [] ∨
    (sys.check_thresholds cfg now [(d, some t)]).alerts = [breachMsg d t h] := by
  unfold AlertSystem.check_thresholds
  rw [List.foldl_cons, List.foldl_nil]
  unfold check_step
  simp only [hthr, hget, ht, if_pos, Option.isSome_none, Bool.false_eq_true,
    if_false, if_true]
  split
  · left; rfl
  · cases alookup sys.custom_alert_actions d with
    | none => right; rfl
    | some raises =>
      dsimp only
      split
      · right; rfl
      · right; rfl

/-- The messages forwarded by the `_check_alerts` loop are a sublist of
the accumulated output followed by the messages given to it. -/
theorem dispatch_foldl_sublist (cooldown now : Int) :
    ∀ (alerts : List String) (lat : List (String × Int)) (out : List String),
    ((alerts.foldl (dispatch_step cooldown now) (lat, out)).2).Sublist
      (out ++ alerts) := by
  intro alerts
  induction alerts with
  | nil => intro lat out; simp
  | cons a rest ih =>
    intro lat out
    rw [List.foldl_cons]
    unfold dispatch_step
    dsimp only
    split
    · exact (ih lat out).trans
        (List.Sublist.append_left
          (List.sublist_cons_of_sublist a (List.Sublist.refl rest)) out)
    · have := ih (aset lat (firstToken a) now) (out ++ [a])
      simpa using this

/-- Evaluation of `reset_alert` when the device has a state record. -/
theorem reset_alert_eq (sys : AlertSystem) (d : String) (st : AlertState)
    (hget : sys.alert_states.get d = some st) :
    sys.reset_alert d = { sys with alert_states := (sys.alert_states.set d
      { active := false, last_triggered := st.last_triggered }) } := by
  unfold AlertSystem.reset_alert
  rw [hget]

/-- Claim C1, corrected. For every device with a state record and a
threshold, `reset_alert` sets `active := false` and leaves
`last_triggered` unchanged, exactly as the claim says; but a subsequent
reading strictly above the threshold produces a new breach message only
when at least `cooldown_period` seconds have elapsed since
`last_triggered` — within the cooldown window the check emits nothing and
changes nothing, because the cooldown gate of `check_thresholds` tests
`last_triggered` and never consults `active`. -/
theorem C1_reset_does_not_bypass_cooldown (sys : AlertSystem)
    (cfg : ConfigManager) (d : String) (st : AlertState) (t h now : Int)
    (hget : sys.alert_states.get d = some st)
    (hthr : cfg.get_threshold d = Except.ok h)
    (ht : h < t)
    (hact : alookup sys.custom_alert_actions d = none) :
    (sys.reset_alert d).alert_states.get d =
      some { active := false, last_triggered := st.last_triggered } ∧
    (now - st.last_triggered < sys.cooldown_period →
      (sys.reset_alert d).check_thresholds cfg now [(d, some t)] =
        { alerts := [], sys := sys.reset_alert d, error := none }) ∧
    (sys.cooldown_period ≤ now - st.last_triggered →
      ((sys.reset_alert d).check_thresholds cfg now [(d, some t)]).alerts =
        [breachMsg d t h]) := by
  have hres := reset_alert_eq sys d st hget
  have hget2 : (sys.reset_alert d).alert_states.get d =
      some { active := false, last_triggered := st.last_triggered } := by
    rw [hres]
    exact AlertStates.get_set_same _ _ _ _ hget
  have hcd : (sys.reset_alert d).cooldown_period = sys.cooldown_period := by
    rw [hres]
  have hca : alookup (sys.reset_alert d).custom_alert_actions d = none := by
    rw [hres]
    exact hact
  refine ⟨hget2, ?_, ?_⟩
  · intro hcool
    exact check_one_suppressed _ cfg d _ t h now hget2 hthr ht (by rw [hcd]; exact hcool)
  · intro hcool
    rw [check_one_breach _ cfg d _ t h now hget2 hthr ht (by rw [hcd]; exact hcool) hca]

/-- Witness for C1: the corrected theorem applied to an engine whose CPU
alert fired at time 1000, reset, then checked at time 1100 (inside the
300 s cooldown) with CPU at 90 °C: no message is produced. -/
theorem C1_witness :
    ((1100 : Int) - 1000 < sysActive.cooldown_period) ∧
    (sysActive.reset_alert "CPU").alert_states.get "CPU" =
      some { active := false, last_triggered := 1000 } ∧
    (sysActive.reset_alert "CPU").check_thresholds cfgD 1100
        [("CPU", some 90)] =
      { alerts := [], sys := sysActive.reset_alert "CPU", error := none } :=
  ⟨by decide,
   (C1_reset_does_not_bypass_cooldown sysActive cfgD "CPU"
      { active := true, last_triggered := 1000 } 90 85 1100
      (by decide) (by decide) (by decide) (by decide)).1,
   (C1_reset_does_not_bypass_cooldown sysActive cfgD "CPU"
      { active := true, last_triggered := 1000 } 90 85 1100
      (by decide) (by decide) (by decide) (by decide)).2.1 (by decide)⟩

/-- Counterexample to C1 as stated: after a CPU breach at time 1000 and a
`reset_alert` (which keeps `last_triggered = 1000` and clears `active`),
a check at time 1100 — within the cooldown window — with CPU at 90 °C,
above the 85 °C threshold, returns no breach message, where the claim
promises one. -/
theorem C1_counterexample :
    ((AlertSystem.check_thresholds sysD cfgD 1000 [("CPU", some 90)]).sys.reset_alert
        "CPU").alert_states.cpu =
      { active := false, last_triggered := 1000 } ∧
    ((1100 : Int) - 1000 < cfgD.alert_cooldown) ∧
    (((AlertSystem.check_thresholds sysD cfgD 1000
        [("CPU", some 90)]).sys.reset_alert "CPU").check_thresholds cfgD 1100
        [("CPU", some 90)]).alerts = [] := by
  decide

/-- Claim C2, corrected. The source invokes the registered custom action
with no `try` around it, so when the action raises, `check_thresholds`
propagates the exception: the message list (which already holds the
breach message) is never returned to the caller, and the devices after
the breaching one in the snapshot are not processed at all — the result
does not depend on `rest`. The state update for the breaching device
(`active := true`, `last_triggered := now`) does persist. -/
theorem C2_action_failure_aborts_call (sys : AlertSystem)
    (cfg : ConfigManager) (d : String) (st : AlertState) (t h now : Int)
    (rest : List (String × Option Int))
    (hget : sys.alert_states.get d = some st)
    (hthr : cfg.get_threshold d = Except.ok h)
    (ht : h < t)
    (hcool : sys.cooldown_period ≤ now - st.last_triggered)
    (hact : alookup sys.custom_alert_actions d = some true) :
    sys.check_thresholds cfg now ((d, some t) :: rest) =
      { alerts := [breachMsg d t h]
        sys := { sys with alert_states := (sys.alert_states.set d
          { active := true, last_triggered := now }) }
        error := some (PyError.actionError d) } := by
  unfold AlertSystem.check_thresholds
  rw [List.foldl_cons]
  have hstep : check_step cfg now { alerts := [], sys := sys, error := none }
      (d, some t) =
      { alerts := [breachMsg d t h]
        sys := { sys with alert_states := (sys.alert_states.set d
          { active := true, last_triggered := now }) }
        error := some (PyError.actionError d) } := by
    unfold check_step
    simp [hthr, hget, hact, ht, not_lt.mpr hcool]
  rw [hstep, foldl_check_step_of_error _ _ _ _ (by simp)]

/-- Witness for C2: the corrected theorem applied to a fresh engine with
a raising action registered for CPU and the snapshot CPU 90 °C, GPU
95 °C at time 1000. -/
theorem C2_witness :
    (sysD.set_custom_alert_action "CPU" true).check_thresholds cfgD 1000
        [("CPU", some 90), ("GPU", some 95)] =
      { alerts := [breachMsg "CPU" 90 85]
        sys := { sysD.set_custom_alert_action "CPU" true with
          alert_states := (((sysD.set_custom_alert_action "CPU"
            true).alert_states.set "CPU"
            { active := true, last_triggered := 1000 })) }
        error := some (PyError.actionError "CPU") } :=
  C2_action_failure_aborts_call (sysD.set_custom_alert_action "CPU" true)
    cfgD "CPU" { active := false, last_triggered := 0 } 90 85 1000
    [("GPU", some 95)] (by decide) (by decide) (by decide) (by decide)
    (by decide)

/-- Counterexample to C2 as stated: with a raising action registered for
CPU, checking the snapshot CPU 90 °C, GPU 95 °C at time 1000 raises the
action exception, so no list is returned, and GPU — above its 90 °C
threshold and outside any cooldown — keeps its initial state: the other
device was not processed. -/
theorem C2_counterexample :
    ((sysD.set_custom_alert_action "CPU" true).check_thresholds cfgD 1000
        [("CPU", some 90), ("GPU", some 95)]).error =
      some (PyError.actionError "CPU") ∧
    ((sysD.set_custom_alert_action "CPU" true).check_thresholds cfgD 1000
        [("CPU", some 90), ("GPU", some 95)]).sys.alert_states.gpu =
      { active := false, last_triggered := 0 } ∧
    cfgD.get_threshold "GPU" = Except.ok 90 ∧ ((90 : Int) < 95) := by
  decide

/-- Claim C3, confirmed. For every device with a state record, a
threshold and no registered raising action, if a first check with a
reading strictly above the threshold happens outside the cooldown window
and a second check with a reading strictly above the threshold happens
less than `cooldown_period` seconds after the first, then the first call
returns exactly the one breach message and the second call returns no
message and leaves the whole engine state unchanged. -/
theorem C3_second_breach_suppressed (sys : AlertSystem) (cfg : ConfigManager)
    (d : String) (st : AlertState) (t1 t2 h now1 now2 : Int)
    (hget : sys.alert_states.get d = some st)
    (hthr : cfg.get_threshold d = Except.ok h)
    (ht1 : h < t1) (ht2 : h < t2)
    (hfresh : sys.cooldown_period ≤ now1 - st.last_triggered)
    (hgap : now2 - now1 < sys.cooldown_period)
    (hact : alookup sys.custom_alert_actions d = none) :
    (sys.check_thresholds cfg now1 [(d, some t1)]).alerts =
      [breachMsg d t1 h] ∧
    (sys.check_thresholds cfg now1 [(d, some t1)]).error = none ∧
    (sys.check_thresholds cfg now1 [(d, some t1)]).sys.check_thresholds cfg
        now2 [(d, some t2)] =
      { alerts := []
        sys := (sys.check_thresholds cfg now1 [(d, some t1)]).sys
        error := none } := by
  rw [check_one_breach sys cfg d st t1 h now1 hget hthr ht1 hfresh hact]
  refine ⟨rfl, rfl, ?_⟩
  exact check_one_suppressed _ cfg d
    { active := true, last_triggered := now1 } t2 h now2
    (AlertStates.get_set_same _ _ _ _ hget) hthr ht2 hgap

/-- Witness for C3: a fresh engine, CPU at 90 °C checked at times 1000
and 1100 with cooldown 300 s: one breach message, then nothing. -/
theorem C3_witness :
    sysD.cooldown_period ≤ (1000 : Int) - 0 ∧ (1100 : Int) - 1000 < sysD.cooldown_period ∧
    (sysD.check_thresholds cfgD 1000 [("CPU", some 90)]).alerts =
      [breachMsg "CPU" 90 85] ∧
    (sysD.check_thresholds cfgD 1000 [("CPU", some 90)]).sys.check_thresholds
        cfgD 1100 [("CPU", some 90)] =
      { alerts := []
        sys := (sysD.check_thresholds cfgD 1000 [("CPU", some 90)]).sys
        error := none } :=
  ⟨by decide, by decide,
   (C3_second_breach_suppressed sysD cfgD "CPU"
      { active := false, last_triggered := 0 } 90 90 85 1000 1100
      (by decide) (by decide) (by decide) (by decide) (by decide) (by decide)
      (by decide)).1,
   (C3_second_breach_suppressed sysD cfgD "CPU"
      { active := false, last_triggered := 0 } 90 90 85 1000 1100
      (by decide) (by decide) (by decide) (by decide) (by decide) (by decide)
      (by decide)).2.2⟩

/-- Claim C4, confirmed. For every device with a state record and a
threshold, a single-device check returns the recovery message exactly
when the reading is at or below the threshold and `active` was `true`;
in that case `active` transitions to `false` with `last_triggered`
untouched, with no condition whatsoever on the current time, so no
cooldown ever suppresses a recovery; and when `active` was already
`false` an at-or-below reading produces no message and no change. -/
theorem C4_recovery_characterization (sys : AlertSystem)
    (cfg : ConfigManager) (d : String) (st : AlertState) (t h now : Int)
    (hget : sys.alert_states.get d = some st)
    (hthr : cfg.get_threshold d = Except.ok h) :
    ((sys.check_thresholds cfg now [(d, some t)]).alerts =
        [recoveryMsg d t] ↔ (t ≤ h ∧ st.active = true)) ∧
    (t ≤ h → st.active = true →
      sys.check_thresholds cfg now [(d, some t)] =
        { alerts := [recoveryMsg d t]
          sys := { sys with alert_states := (sys.alert_states.set d
            { active := false, last_triggered := st.last_triggered }) }
          error := none }) ∧
    (t ≤ h → st.active = false →
      sys.check_thresholds cfg now [(d, some t)] =
        { alerts := [], sys := sys, error := none }) := by
  refine ⟨⟨?_, ?_⟩, ?_, ?_⟩
  · intro halerts
    by_cases hth : t ≤ h
    · refine ⟨hth, ?_⟩
      by_cases hac : st.active = true
      · exact hac
      · rw [check_one_idle sys cfg d st t h now hget hthr hth
          (Bool.not_eq_true st.active ▸ hac)] at halerts
        simp at halerts
    · push_neg at hth
      rcases check_one_overtemp_alerts sys cfg d st t h now hget hthr hth with
        hz | hz
      · rw [hz] at halerts
        simp at halerts
      · rw [hz] at halerts
        injection halerts with h1 _
        exact absurd h1 (breachMsg_ne_recoveryMsg d t t h)
  · rintro ⟨hth, hac⟩
    rw [check_one_recovery sys cfg d st t h now hget hthr hth hac]
  · intro hth hac
    exact check_one_recovery sys cfg d st t h now hget hthr hth hac
  · intro hth hac
    exact check_one_idle sys cfg d st t h now hget hthr hth hac

/-- Witness for C4: an engine whose CPU alert fired at time 1000 checked
at time 1100 — still inside the 300 s cooldown — with CPU at 80 °C:
the recovery message is emitted anyway. -/
theorem C4_witness :
    ((sysActive.check_thresholds cfgD 1100 [("CPU", some 80)]).alerts =
        [recoveryMsg "CPU" 80] ↔ ((80 : Int) ≤ 85 ∧ true = true)) ∧
    ((1100 : Int) - 1000 < sysActive.cooldown_period) ∧
    sysActive.check_thresholds cfgD 1100 [("CPU", some 80)] =
      { alerts := [recoveryMsg "CPU" 80]
        sys := { sysActive with alert_states := (sysActive.alert_states.set
          "CPU" { active := false, last_triggered := 1000 }) }
        error := none } :=
  ⟨(C4_recovery_characterization sysActive cfgD "CPU"
      { active := true, last_triggered := 1000 } 80 85 1100
      (by decide) (by decide)).1,
   by decide,
   (C4_recovery_characterization sysActive cfgD "CPU"
      { active := true, last_triggered := 1000 } 80 85 1100
      (by decide) (by decide)).2.1 (by decide) (by decide)⟩

/-- Claim C5, corrected. The message templates the source builds are
`<device>温度过高: <t>°C (阈值: <threshold>°C)` for a breach and
`<device>温度已恢复正常: <t>°C` for a recovery (numerals rendered from
the modelled integer values); in the claimed scenario — thresholds
CPU 85 / GPU 90 / SSD 70, cooldown 300 s, CPU at 90 °C checked three
times 10 s apart (at absolute times at least one cooldown after the
zero-initialised `last_triggered`) — the breach message is produced once
and the next two calls produce nothing. -/
theorem C5_message_formats :
    breachMsg "CPU" 90 85 = "CPU温度过高: 90°C (阈值: 85°C)" ∧
    recoveryMsg "CPU" 80 = "CPU温度已恢复正常: 80°C" ∧
    (sysD.check_thresholds cfgD 1000 [("CPU", some 90)]).alerts =
      ["CPU温度过高: 90°C (阈值: 85°C)"] ∧
    ((sysD.check_thresholds cfgD 1000 [("CPU", some 90)]).sys.check_thresholds
        cfgD 1010 [("CPU", some 90)]).alerts = [] ∧
    (((sysD.check_thresholds cfgD 1000
        [("CPU", some 90)]).sys.check_thresholds cfgD 1010
        [("CPU", some 90)]).sys.check_thresholds cfgD 1020
        [("CPU", some 90)]).alerts = [] := by
  decide

/-- Counterexample to C5 as stated: the message the code produces for a
CPU reading of 90 °C against threshold 85 °C is the Chinese template
string, not `CPU over threshold: 90°C (threshold: 85°C)` as the claim
fixes. -/
theorem C5_counterexample :
    (sysD.check_thresholds cfgD 1000 [("CPU", some 90)]).error = none ∧
    (sysD.check_thresholds cfgD 1000 [("CPU", some 90)]).alerts ≠
      ["CPU over threshold: 90°C (threshold: 85°C)"] ∧
    (sysD.check_thresholds cfgD 1000 [("CPU", some 90)]).alerts =
      ["CPU温度过高: 90°C (阈值: 85°C)"] := by
  decide

/-- Claim C6, corrected. On an accepted cycle the loop invokes the
UI-update sink with the snapshot, invokes `check_thresholds`, and, when
logging is enabled, invokes the logging sink with the snapshot — all as
claimed; but the messages handed to the alert sink are only a sublist of
those `check_thresholds` returned: `_check_alerts` applies its own
cooldown filter keyed on `alert.split()[0]` and may drop messages. -/
theorem C6_accepted_cycle_sinks (cfg : ConfigManager) (m : HardwareMonitor)
    (snapshot : Snapshot) (now : Int)
    (hval : validate_temperatures snapshot m.last_temperatures = true)
    (herr : (m.alert_system.check_thresholds cfg now snapshot).error = none) :
    (monitor_cycle cfg m snapshot now).2.ui_calls = [snapshot] ∧
    (monitor_cycle cfg m snapshot now).2.log_calls =
      (if cfg.log_temperatures then [snapshot] else []) ∧
    ((monitor_cycle cfg m snapshot now).2.alert_calls).Sublist
      (m.alert_system.check_thresholds cfg now snapshot).alerts := by
  unfold monitor_cycle
  dsimp only
  rw [hval]
  simp only [if_true]
  rw [herr]
  dsimp only
  refine ⟨rfl, rfl, ?_⟩
  have := dispatch_foldl_sublist cfg.alert_cooldown now
    (m.alert_system.check_thresholds cfg now snapshot).alerts
    m.last_alert_time []
  simpa using this

/-- Witness for C6: the corrected theorem applied to `mon0` with CPU at
90 °C at time 1000 — an accepted cycle with no engine exception. -/
theorem C6_witness :
    (monitor_cycle cfgD mon0 [("CPU", some 90)] 1000).2.ui_calls =
      [[("CPU", some 90)]] ∧
    (monitor_cycle cfgD mon0 [("CPU", some 90)] 1000).2.log_calls =
      (if cfgD.log_temperatures then [[("CPU", some 90)]] else []) ∧
    ((monitor_cycle cfgD mon0 [("CPU", some 90)] 1000).2.alert_calls).Sublist
      (mon0.alert_system.check_thresholds cfgD 1000
        [("CPU", some 90)]).alerts :=
  C6_accepted_cycle_sinks cfgD mon0 [("CPU", some 90)] 1000 (by decide)
    (by decide)

/-- Counterexample to C6 as stated: on the accepted fourth cycle of the
breach/recovery/breach/recovery run, `check_thresholds` returns the CPU
recovery message, yet the loop forwards nothing to the alert sink — the
loop-level filter drops the message because the previous recovery for
the same `split()[0]` key fired 250 s earlier, inside the 300 s
cooldown. -/
theorem C6_counterexample :
    validate_temperatures [("CPU", some 80)] c6mon3.last_temperatures =
      true ∧
    (c6mon3.alert_system.check_thresholds cfgD 1350
      [("CPU", some 80)]).error = none ∧
    (c6mon3.alert_system.check_thresholds cfgD 1350
      [("CPU", some 80)]).alerts = [recoveryMsg "CPU" 80] ∧
    (monitor_cycle cfgD c6mon3 [("CPU", some 80)] 1350).2.alert_calls =
      [] ∧
    (monitor_cycle cfgD c6mon3 [("CPU", some 80)] 1350).2.ui_calls =
      [[("CPU", some 80)]] := by
  decide

/-- Claim C7, confirmed. If every reading of the fetched snapshot is
absent, or some device reading differs from its reading in the baseline
snapshot by strictly more than 20 °C, the cycle is rejected: no UI,
alert or log sink is invoked, and the baseline `last_temperatures` used
for the delta comparison is not advanced — only `current_temperatures`
is overwritten with the fetched snapshot. -/
theorem C7_rejected_cycle (cfg : ConfigManager) (m : HardwareMonitor)
    (snapshot : Snapshot) (now : Int)
    (h : (∀ p ∈ snapshot, p.2 = none) ∨
         ∃ d t lt, (d, some t) ∈ snapshot ∧
           alookup m.last_temperatures d = some (some lt) ∧
           20 < (t - lt).natAbs) :
    monitor_cycle cfg m snapshot now =
      ({ m with current_temperatures := snapshot }, CycleOutput.empty) := by
  have hval : validate_temperatures snapshot m.last_temperatures = false := by
    unfold validate_temperatures
    rcases h with h | ⟨d, t, lt, hmem, hlast, hjump⟩
    · have : snapshot.any (fun p => p.2.isSome) = false := by
        rw [List.any_eq_false]
        intro p hp
        rw [h p hp]
        simp
      rw [this, Bool.false_and]
    · have : snapshot.all (fun p =>
          match p.2, alookup m.last_temperatures p.1 with
          | some t, some (some lt) => decide ((t - lt).natAbs ≤ 20)
          | _, _ => true) = false := by
        rw [List.all_eq_false]
        refine ⟨(d, some t), hmem, ?_⟩
        simp only [hlast]
        simp
        omega
      rw [this, Bool.and_false]
  unfold monitor_cycle
  rw [hval]
  simp

/-- Witness for C7: a cycle whose CPU reading jumps from the accepted
80 °C to 105 °C — a 25 °C jump — produces no sink invocations. -/
theorem C7_witness :
    monitor_cycle cfgD mon0 [("CPU", some 105)] 1000 =
      ({ mon0 with current_temperatures := [("CPU", some 105)] },
        CycleOutput.empty) :=
  C7_rejected_cycle cfgD mon0 [("CPU", some 105)] 1000
    (Or.inr ⟨"CPU", 105, 80, by decide, by decide, by decide⟩)

/-- Claim C8, corrected. After any cycle — accepted or rejected —
`get_current_temperatures()` returns exactly the snapshot fetched that
cycle, because `current_temperatures` is assigned before validation; it
is therefore not in general the most recent accepted snapshot. The
`.copy()` the accessor takes is value semantics in the model, so the
copy aspect of the claim holds trivially. -/
theorem C8_returns_fetched_snapshot (cfg : ConfigManager)
    (m : HardwareMonitor) (snapshot : Snapshot) (now : Int) :
    (monitor_cycle cfg m snapshot now).1.get_current_temperatures =
      snapshot := by
  unfold monitor_cycle HardwareMonitor.get_current_temperatures
  dsimp only
  split
  · split <;> rfl
  · rfl

/-- Counterexample to C8 as stated: after an accepted cycle reading CPU
85 °C, a cycle fetching CPU 110 °C is rejected (25 °C jump, no sink
invoked), yet `get_current_temperatures()` returns the rejected 110 °C
snapshot, which differs from the most recent accepted snapshot. -/
theorem C8_counterexample :
    c8mon1.last_temperatures = [("CPU", some 85)] ∧
    (monitor_cycle cfgD c8mon1 [("CPU", some 110)] 1010).2 =
      CycleOutput.empty ∧
    (monitor_cycle cfgD c8mon1 [("CPU", some 110)] 1010).1.get_current_temperatures =
      [("CPU", some 110)] ∧
    [("CPU", some (110 : Int))] ≠ [("CPU", some (85 : Int))] := by
  decide

/-- Claim C9, confirmed. Running `check_thresholds` on a snapshot
containing a device with an absent (`None`) reading is identical in
every respect — messages, every alert state, error — to running it on
the same snapshot without that entry: the device is skipped entirely,
and absence never triggers an implicit recovery. -/
theorem C9_absent_reading_skipped (sys : AlertSystem) (cfg : ConfigManager)
    (now : Int) (d : String) (pre post : List (String × Option Int)) :
    sys.check_thresholds cfg now (pre ++ (d, none) :: post) =
      sys.check_thresholds cfg now (pre ++ post) := by
  unfold AlertSystem.check_thresholds
  rw [List.foldl_append, List.foldl_append, List.foldl_cons, check_step_none]

/-- Claim C10, confirmed. For every snapshot containing a non-`None`
reading for a device outside the fixed set CPU/GPU/SSD, the
`check_thresholds` call fails with an exception rather than skipping the
device; and whenever no registered custom action raises — the one other
failure source — the escaping exception is specifically an unhandled
`KeyError`, from the default-threshold lookup or the alert-state
lookup. -/
theorem C10_unknown_device_raises (sys : AlertSystem) (cfg : ConfigManager)
    (now : Int) (temps : List (String × Option Int)) (d : String) (t : Int)
    (hmem : (d, some t) ∈ temps)
    (hd : ¬ trackedDevice d) :
    ((sys.check_thresholds cfg now temps).error).isSome ∧
    ((∀ p ∈ sys.custom_alert_actions, p.2 = false) →
      ∃ k, (sys.check_thresholds cfg now temps).error =
        some (PyError.keyError k)) := by
  have h1 := foldl_check_step_isSome cfg now d t hd temps
    { alerts := [], sys := sys, error := none } hmem
  refine ⟨h1, ?_⟩
  intro hnr
  have h2 := foldl_check_step_error_shape cfg now temps
    { alerts := [], sys := sys, error := none } hnr (Or.inl rfl)
  unfold AlertSystem.check_thresholds
  rcases h2 with h2 | h2
  · rw [h2] at h1
    simp at h1
  · exact h2

/-- Witness for C10: a fresh engine checking the snapshot CPU 90 °C,
FAN 50 °C raises a `KeyError` because FAN is not a tracked device. -/
theorem C10_witness :
    ¬ trackedDevice "FAN" ∧
    ((sysD.check_thresholds cfgD 1000
      [("CPU", some 90), ("FAN", some 50)]).error).isSome ∧
    (∃ k, (sysD.check_thresholds cfgD 1000
      [("CPU", some 90), ("FAN", some 50)]).error =
        some (PyError.keyError k)) :=
  ⟨by decide,
   (C10_unknown_device_raises sysD cfgD 1000
     [("CPU", some 90), ("FAN", some 50)] "FAN" 50 (by decide)
     (by decide)).1,
   (C10_unknown_device_raises sysD cfgD 1000
     [("CPU", some 90), ("FAN", some 50)] "FAN" 50 (by decide)
     (by decide)).2 (by decide)⟩
